import Mathlib

/-!
Verification of the dense-matrix engine of the mathgl repository,
a shallow embedding of src/matrix.go.

Modelling conventions:
* Go machine integers (type int) are embedded as Lean Int.
* Go runtime panics are made explicit through the Outcome monad below.
  Each Panic constructor records the program point class that raises it
  (nil pointer dereference through a nil named-return Matrix pointer,
  method call on a nil VecNum interface value, slice index out of range,
  make with negative length).  In the Go runtime the first two raise the
  same nil-dereference run-time error; they are distinguished here only
  by program point.
* The element type system (VecType, VecNum, checkType) lives in a file of
  the repository that is not part of src/ (only matrix.go is); it is
  modelled from the spec, see the doc comments below.
* A Go slice of interface values can hold nil entries.  Matrix data that
  the claims quantify over satisfies the data-model invariant (every
  element is a value of some numeric variant), so Matrix.dat is embedded
  as List VecNum; the nil interface values that the code itself creates
  (the freshly made accumulator slice in Mul) are modelled explicitly as
  Option VecNum there.
-/

namespace Mathgl

/-- Modelled from the spec: VecType is a tag identifying which numeric
variant a matrix holds.  The exact enumerated set is an external
collaborator concern (the file defining it is not part of src/); two
representative tags suffice for every claim.  tInt is taken as the Go
zero value of the tag type. -/
inductive VecType where
  | tInt
  | tFloat
deriving DecidableEq

/-- Modelled from the spec: VecNum is polymorphic over the capability set
add, subtract, multiply; variants correspond 1:1 with VecType tags.  The
carrier of each variant is abstracted as Int (exact arithmetic); only
variant identity and the add/sub/mul algebra matter for the claims. -/
inductive VecNum where
  | vInt   (z : Int)
  | vFloat (z : Int)
deriving DecidableEq

/-- Modelled from the spec: checkType(tag, value) returns whether the
runtime variant of value equals tag. -/
def checkType : VecType → VecNum → Bool
  | .tInt,   .vInt _   => true
  | .tFloat, .vFloat _ => true
  | _,       _         => false

/-- Modelled from the spec: same-variant addition.  Combining different
variants is a programming error that is unreachable once the matrix-level
type checks pass; the fallthrough value returned in that case is
immaterial (theorems that depend on element arithmetic carry the
element-type invariants as hypotheses). -/
def VecNum.add : VecNum → VecNum → VecNum
  | .vInt a,   .vInt b   => .vInt (a + b)
  | .vFloat a, .vFloat b => .vFloat (a + b)
  | a,         _         => a

/-- Modelled from the spec: same-variant subtraction (fallthrough as in
VecNum.add). -/
def VecNum.sub : VecNum → VecNum → VecNum
  | .vInt a,   .vInt b   => .vInt (a - b)
  | .vFloat a, .vFloat b => .vFloat (a - b)
  | a,         _         => a

/-- Modelled from the spec: same-variant multiplication (fallthrough as
in VecNum.add). -/
def VecNum.mul : VecNum → VecNum → VecNum
  | .vInt a,   .vInt b   => .vInt (a * b)
  | .vFloat a, .vFloat b => .vFloat (a * b)
  | a,         _         => a

/-- Program-point classes of Go runtime panics reachable in matrix.go. -/
inductive Panic where
  /-- write or read through a nil Matrix pointer (the nil named-return
  mat of the constructors, also called by Mul). -/
  | nilPtrDeref
  /-- method call on a nil VecNum interface value (the never-initialized
  accumulator slots of the product slice in Mul). -/
  | nilInterfaceCall
  /-- slice index out of range. -/
  | oobIndex
  /-- make with negative length. -/
  | negMakeLen
deriving DecidableEq

/-- Result of running a piece of Go code: a value, or a runtime panic. -/
inductive Outcome (α : Type) where
  | ok    (a : α)
  | panic (p : Panic)
deriving DecidableEq

def Outcome.bind {α β : Type} : Outcome α → (α → Outcome β) → Outcome β
  | .ok a,    f => f a
  | .panic p, _ => .panic p

instance : Monad Outcome where
  pure := Outcome.ok
  bind := Outcome.bind

@[simp] theorem Outcome.bind_ok {α β : Type} (a : α) (f : α → Outcome β) :
    Outcome.bind (.ok a) f = f a := rfl

@[simp] theorem Outcome.bind_panic {α β : Type} (p : Panic) (f : α → Outcome β) :
    Outcome.bind (.panic p) f = .panic p := rfl

@[simp] theorem Outcome.monadBind_eq {α β : Type} (x : Outcome α) (f : α → Outcome β) :
    x >>= f = x.bind f := rfl

@[simp] theorem Outcome.monadPure_eq {α : Type} (a : α) :
    (pure a : Outcome α) = .ok a := rfl

/-- Go slice read xs[i]: panics when i is negative or not below the
length. -/
def sliceGet {α : Type} (xs : List α) (i : Int) : Outcome α :=
  if 0 ≤ i then
    match xs[i.toNat]? with
    | some v => .ok v
    | none   => .panic .oobIndex
  else .panic .oobIndex

/-- Go slice write xs[i] = v: panics when i is out of range, otherwise
returns the updated slice. -/
def sliceSet {α : Type} (xs : List α) (i : Int) (v : α) : Outcome (List α) :=
  if 0 ≤ i ∧ i < (xs.length : Int) then .ok (xs.set i.toNat v)
  else .panic .oobIndex

/-- The Matrix struct of matrix.go: an m x n matrix with element tag typ
and flat data dat. -/
structure Matrix where
  m   : Int
  n   : Int
  typ : VecType
  dat : List VecNum
deriving DecidableEq

/-- The Go zero value of the Matrix struct: the untyped 0x0 matrix that
the arithmetic operators return on their failure paths (tInt stands for
the zero value of the external tag type, see VecType). -/
def zeroMatrix : Matrix := { m := 0, n := 0, typ := .tInt, dat := [] }

/-- func NewMatrix(m, n int, typ VecType) of matrix.go: dat starts as an
empty slice (capacity 2). -/
def NewMatrix (m n : Int) (typ : VecType) : Matrix :=
  { m := m, n := n, typ := typ, dat := [] }

/-- The error values the functions of matrix.go build with errors.New,
identified by their message. -/
inductive GoError where
  /-- message: Element type does not match matrix (MatrixFromCols and
  MatrixFromRows). -/
  | elemTypeMismatch
  /-- message: Matrix dimensions do not match data passed in
  (MatrixFromSlice). -/
  | dimensionMismatch
  /-- message: Type of at least one element does not match declared type
  (MatrixFromSlice). -/
  | sliceTypeMismatch
  /-- message: Dimensions out of bounds (SetElement). -/
  | dimsOutOfBounds
  /-- message: Type of element does not match the matrix type
  (SetElement). -/
  | setTypeMismatch
deriving DecidableEq

/-- Assignment of one field through a Go pointer to a Matrix: a nil
pointer panics with a nil dereference. -/
def ptrUpdate (mat : Option Matrix) (f : Matrix → Matrix) : Outcome (Option Matrix) :=
  match mat with
  | none   => .panic .nilPtrDeref
  | some r => .ok (some (f r))

/-- Read through a Go pointer to a Matrix: nil panics. -/
def ptrRead (mat : Option Matrix) : Outcome Matrix :=
  match mat with
  | none   => .panic .nilPtrDeref
  | some r => .ok r

/-- Index pairs (j, i) visited by the double loop of MatrixFromCols:
i runs over n outermost, j over m innermost, and the body reads
el[j][i]. -/
def colIdx (mm nn : Int) : List (Nat × Nat) :=
  (List.range nn.toNat).flatMap (fun i => (List.range mm.toNat).map (fun j => (j, i)))

/-- Index pairs (j, i) visited by the double loop of MatrixFromRows:
i runs over m outermost, j over n innermost, and the body also reads
el[j][i]. -/
def rowIdx (mm nn : Int) : List (Nat × Nat) :=
  (List.range mm.toNat).flatMap (fun i => (List.range nn.toNat).map (fun j => (j, i)))

/-- Body of the construction loops of MatrixFromCols and MatrixFromRows:
read el[j][i] (panicking on an out-of-range index as the Go code would),
check its type against the matrix tag, and either append it to dat or
return the element-type error.  An error state is carried through the
remaining (in Go: never executed) iterations unchanged. -/
def appendChecked (typ : VecType) (el : List (List VecNum))
    (st : Sum Matrix GoError) (ji : Nat × Nat) : Outcome (Sum Matrix GoError) :=
  match st with
  | .inr e => .ok (.inr e)
  | .inl r =>
    Outcome.bind (sliceGet el (ji.1 : Int)) (fun row =>
    Outcome.bind (sliceGet row (ji.2 : Int)) (fun e =>
      if checkType typ e then .ok (.inl { r with dat := r.dat ++ [e] })
      else .ok (.inr .elemTypeMismatch)))

/-- func MatrixFromCols(typ VecType, el [][]VecNum) (mat *Matrix, err error)
of matrix.go.  The named return mat is a nil Matrix pointer and the first
statement mat.typ = typ writes through it, so the function panics on
every input; the remaining statements (modelled below in source order)
are unreachable. -/
def MatrixFromCols (typ : VecType) (el : List (List VecNum)) :
    Outcome (Option Matrix × Option GoError) :=
  Outcome.bind (ptrUpdate none (fun r => { r with typ := typ })) (fun mat =>
  Outcome.bind (ptrUpdate mat (fun r => { r with m := (el.length : Int) })) (fun mat =>
  Outcome.bind (sliceGet el 0) (fun el0 =>
  Outcome.bind (ptrUpdate mat (fun r => { r with n := (el0.length : Int) })) (fun mat =>
  Outcome.bind (ptrUpdate mat (fun r => { r with dat := [] })) (fun mat =>
  Outcome.bind (ptrRead mat) (fun r0 =>
  Outcome.bind (List.foldlM (appendChecked typ el) (.inl r0) (colIdx r0.m r0.n)) (fun res =>
  match res with
  | .inl r => .ok (some r, none)
  | .inr e => .ok (none, some e))))))))

/-- func MatrixFromRows(typ VecType, el [][]VecNum) (mat *Matrix, err error)
of matrix.go: identical to MatrixFromCols except for the loop bounds
(rowIdx); it also writes through the nil named-return pointer first, so
it panics on every input. -/
def MatrixFromRows (typ : VecType) (el : List (List VecNum)) :
    Outcome (Option Matrix × Option GoError) :=
  Outcome.bind (ptrUpdate none (fun r => { r with typ := typ })) (fun mat =>
  Outcome.bind (ptrUpdate mat (fun r => { r with m := (el.length : Int) })) (fun mat =>
  Outcome.bind (sliceGet el 0) (fun el0 =>
  Outcome.bind (ptrUpdate mat (fun r => { r with n := (el0.length : Int) })) (fun mat =>
  Outcome.bind (ptrUpdate mat (fun r => { r with dat := [] })) (fun mat =>
  Outcome.bind (ptrRead mat) (fun r0 =>
  Outcome.bind (List.foldlM (appendChecked typ el) (.inl r0) (rowIdx r0.m r0.n)) (fun res =>
  match res with
  | .inl r => .ok (some r, none)
  | .inr e => .ok (none, some e))))))))

/-- func MatrixFromSlice(typ VecType, el []VecNum, m, n int)
(mat *Matrix, err error) of matrix.go.  The named return mat is a nil
Matrix pointer and mat.typ = typ writes through it, so the function
panics on every input before reaching its dimension and type validation
(modelled below in source order). -/
def MatrixFromSlice (typ : VecType) (el : List VecNum) (m n : Int) :
    Outcome (Option Matrix × Option GoError) :=
  Outcome.bind (ptrUpdate none (fun r => { r with typ := typ })) (fun mat =>
  Outcome.bind (ptrUpdate mat (fun r => { r with m := m })) (fun mat =>
  Outcome.bind (ptrUpdate mat (fun r => { r with n := n })) (fun mat =>
  Outcome.bind (ptrRead mat) (fun r =>
  if r.m * r.n ≠ (el.length : Int) then .ok (none, some .dimensionMismatch)
  else if el.any (fun e => !(checkType r.typ e)) then .ok (none, some .sliceTypeMismatch)
  else Outcome.bind (ptrUpdate mat (fun rr => { rr with dat := el })) (fun mat =>
    .ok (mat, none))))))

/-- The function named with the unchecked/unsafe prefix in matrix.go:
func (typ VecType, el []VecNum, m, n int) (mat *Matrix, err error),
the internal fast-path constructor that skips validation.  Its named
return mat is also a nil Matrix pointer written on the first statement,
so it panics on every input. -/
def uncheckedMatrixFromSlice (typ : VecType) (el : List VecNum) (m n : Int) :
    Outcome (Option Matrix × Option GoError) :=
  Outcome.bind (ptrUpdate none (fun r => { r with typ := typ })) (fun mat =>
  Outcome.bind (ptrUpdate mat (fun r => { r with m := m })) (fun mat =>
  Outcome.bind (ptrUpdate mat (fun r => { r with n := n })) (fun mat =>
  Outcome.bind (ptrUpdate mat (fun r => { r with dat := el })) (fun mat =>
  .ok (mat, none)))))

/-- func (mat *Matrix) SetElement(i, j int, el VecNum) error of
matrix.go, embedded as state passing: returns the (possibly updated)
matrix together with the returned error value.  The bounds test is the
one of the source, i < mat.m or j < mat.n, and the flat offset written
is mat.m*j + i. -/
def Matrix.SetElement (mat : Matrix) (i j : Int) (el : VecNum) :
    Outcome (Matrix × Option GoError) :=
  if i < mat.m ∨ j < mat.n then .ok (mat, some .dimsOutOfBounds)
  else if !(checkType mat.typ el) then .ok (mat, some .setTypeMismatch)
  else Outcome.bind (sliceSet mat.dat (mat.m * j + i) el) (fun d =>
    .ok ({ mat with dat := d }, none))

/-- func (m1 Matrix) Add(m2 Matrix) (m3 Matrix) of matrix.go.  The named
return m3 starts as the zero Matrix; on the mismatch path it is returned
unchanged, and on the success path only m3.typ and m3.dat are assigned
(m3.m and m3.n are never written, so they stay 0).  The element loop
over the equal-length slices is List.zipWith. -/
def Matrix.Add (m1 m2 : Matrix) : Matrix :=
  if m1.typ ≠ m2.typ ∨ m1.dat.length ≠ m2.dat.length then zeroMatrix
  else { m := 0, n := 0, typ := m1.typ,
         dat := List.zipWith VecNum.add m1.dat m2.dat }

/-- func (m1 Matrix) Sub(m2 Matrix) (m3 Matrix) of matrix.go: identical
to Add with the element operation sub. -/
def Matrix.Sub (m1 m2 : Matrix) : Matrix :=
  if m1.typ ≠ m2.typ ∨ m1.dat.length ≠ m2.dat.length then zeroMatrix
  else { m := 0, n := 0, typ := m1.typ,
         dat := List.zipWith VecNum.sub m1.dat m2.dat }

/-- One iteration of the inner loop of Mul (line 171 of matrix.go):
dat[j*m2.n+i] = dat[j*m2.n+i].add(m1.dat[k*m1.n+i].mul(m2.dat[j*m2.n+k])).
Evaluation follows Go order: the receiver dat[j*m2.n+i] is read first
(a fresh accumulator slot is a nil interface value), then the two source
elements; calling add on a nil receiver panics. -/
def mulStep (m1 m2 : Matrix) (j i k : Nat) (d : List (Option VecNum)) :
    Outcome (List (Option VecNum)) :=
  Outcome.bind (sliceGet d ((j : Int) * m2.n + (i : Int))) (fun acc =>
  Outcome.bind (sliceGet m1.dat ((k : Int) * m1.n + (i : Int))) (fun a =>
  Outcome.bind (sliceGet m2.dat ((j : Int) * m2.n + (k : Int))) (fun b =>
  Outcome.bind (match acc with
    | none   => .panic .nilInterfaceCall
    | some v => .ok (v.add (a.mul b)))
  (fun s => sliceSet d ((j : Int) * m2.n + (i : Int)) (some s)))))

/-- The triple loop of Mul: j over the columns of m2, i over the rows of
m1, k over the columns of m1, starting from the freshly made slice of
length m1.m*m2.n whose slots are all nil. -/
def mulLoops (m1 m2 : Matrix) : Outcome (List (Option VecNum)) :=
  List.foldlM (fun d j =>
    List.foldlM (fun d i =>
      List.foldlM (fun d k => mulStep m1 m2 j i k d)
        d (List.range m1.n.toNat))
      d (List.range m1.m.toNat))
    (List.replicate (m1.m * m2.n).toNat (none : Option VecNum))
    (List.range m2.n.toNat)

/-- func (m1 Matrix) Mul(m2 Matrix) (m3 Matrix) of matrix.go.  On a
failed compatibility check it returns the zero Matrix; otherwise it
makes the product slice (make panics on a negative length), runs the
triple loop, and then calls the unchecked constructor
(uncheckedMatrixFromSlice) with the product data: that call writes a
field through its nil named-return pointer and panics, so no successful
multiplication result is reachable. -/
def Matrix.Mul (m1 m2 : Matrix) : Outcome Matrix :=
  if m1.n ≠ m2.m ∨ m1.typ ≠ m2.typ then .ok zeroMatrix
  else if m1.m * m2.n < 0 then .panic .negMakeLen
  else Outcome.bind (mulLoops m1 m2) (fun _dat => .panic .nilPtrDeref)

/-- func BatchMultiply(args []Matrix) Matrix of matrix.go.  args[0] is
returned for a length-1 slice; for length above 2 the two contiguous
halves (split at len/2) are reduced recursively (concurrently in Go, by
batchMultHelper goroutines; the fork-join is deterministic, and when
both halves panic the model reports the panic of the left half, which
the Go program joins on first) and the partial results are multiplied;
otherwise (length 0 or 2) args[0] and args[1] are read (panicking on an
empty slice as args[0] does in Go) and multiplied. -/
def BatchMultiply (args : List Matrix) : Outcome Matrix :=
  if args.length = 1 then
    sliceGet args 0
  else if h : 2 < args.length then
    Outcome.bind (BatchMultiply (args.take (args.length / 2))) (fun m1 =>
    Outcome.bind (BatchMultiply (args.drop (args.length / 2))) (fun m2 =>
    m1.Mul m2))
  else
    Outcome.bind (sliceGet args 0) (fun m1 =>
    Outcome.bind (sliceGet args 1) (fun m2 =>
    m1.Mul m2))
termination_by args.length
decreasing_by
  · simp [List.length_take]; omega
  · simp [List.length_drop]; omega

/-- func batchMultHelper(ch chan Matrix, args []Matrix) of matrix.go:
sends BatchMultiply(args) on the channel; the one-shot channel handoff
is modelled as the function result itself. -/
def batchMultHelper (args : List Matrix) : Outcome Matrix :=
  BatchMultiply args

/-- The 2x2 integer matrix [l 1, 1 r; l 0, 1 r] of the spec example, in
row-major order. -/
def exU : Matrix :=
  { m := 2, n := 2, typ := .tInt,
    dat := [.vInt 1, .vInt 1, .vInt 0, .vInt 1] }

/-- A 1x1 integer matrix holding 5. -/
def exA : Matrix := { m := 1, n := 1, typ := .tInt, dat := [.vInt 5] }

/-- A 1x1 integer matrix holding 3. -/
def exB : Matrix := { m := 1, n := 1, typ := .tInt, dat := [.vInt 3] }

/-- A 1x0 integer matrix (constructible through NewMatrix 1 0). -/
def exRow : Matrix := { m := 1, n := 0, typ := .tInt, dat := [] }

/-- A 0x1 integer matrix (constructible through NewMatrix 0 1). -/
def exCol : Matrix := { m := 0, n := 1, typ := .tInt, dat := [] }

/-- The 2x2 integer matrix used for the SetElement claims. -/
def ex2 : Matrix :=
  { m := 2, n := 2, typ := .tInt,
    dat := [.vInt 1, .vInt 1, .vInt 0, .vInt 1] }

/-! Helper lemmas. -/

theorem foldlM_cons_panic {σ : Type} (f : σ → Nat → Outcome σ) (s : σ)
    (hd : Nat) (tl : List Nat) (p : Panic) (h : f s hd = .panic p) :
    List.foldlM f s (hd :: tl) = .panic p := by
  simp [List.foldlM, h]

theorem cancel_add_sub (a b : VecNum) : (a.add b).sub b = a := by
  cases a <;> cases b <;> simp [VecNum.add, VecNum.sub]

theorem zipWith_add_sub_cancel :
    ∀ l1 l2 : List VecNum,
      List.zipWith VecNum.sub (List.zipWith VecNum.add l1 l2) l2 = l1.take l2.length
  | [], _ => by simp
  | a :: t1, [] => by simp
  | a :: t1, b :: t2 => by
      simp [List.zipWith, cancel_add_sub, zipWith_add_sub_cancel t1 t2]

theorem zipWith_getElem_some (f : VecNum → VecNum → VecNum) :
    ∀ (l1 l2 : List VecNum) (i : Nat) (a b : VecNum),
      l1[i]? = some a → l2[i]? = some b →
      (List.zipWith f l1 l2)[i]? = some (f a b)
  | [], _, i, a, b, h1, _ => by simp at h1
  | _ :: _, [], i, a, b, _, h2 => by simp at h2
  | x :: t1, y :: t2, 0, a, b, h1, h2 => by
      simp_all [List.zipWith]
  | x :: t1, y :: t2, i + 1, a, b, h1, h2 => by
      simp only [List.zipWith, List.getElem?_cons_succ] at h1 h2 ⊢
      exact zipWith_getElem_some f t1 t2 i a b h1 h2

/-! Claim theorems. -/

/-- Claim C3 (confirmed): every call to MatrixFromCols, MatrixFromRows,
MatrixFromSlice and the unchecked fast-path constructor writes a field
through the nil named-return Matrix pointer before any validation, so
for every input these constructors panic with a nil-pointer dereference
rather than returning a matrix or an error value. -/
theorem constructors_always_panic (typ : VecType) (el2 : List (List VecNum))
    (el : List VecNum) (m n : Int) :
    MatrixFromCols typ el2 = .panic .nilPtrDeref ∧
    MatrixFromRows typ el2 = .panic .nilPtrDeref ∧
    MatrixFromSlice typ el m n = .panic .nilPtrDeref ∧
    uncheckedMatrixFromSlice typ el m n = .panic .nilPtrDeref :=
  ⟨rfl, rfl, rfl, rfl⟩

/-- Claim C5 (code bug): the claim says fromFlat with len(data) not
equal to m*n fails with a DimensionError, but MatrixFromSlice panics on
its nil named-return pointer before its (correctly written, unreachable)
validation: evaluated at type int, data [1, 2] and dimensions 1x1. -/
theorem fromSlice_panics_before_validation :
    MatrixFromSlice .tInt [.vInt 1, .vInt 2] 1 1 = .panic .nilPtrDeref := rfl

/-- Claim C8 (code bug): the claim says fromColumns on the column-major
description and fromRows on the transposed row-major description of the
same logical matrix produce identical internal matrices, but both
constructors panic on their nil named-return pointer and produce no
matrix at all: evaluated at the logical 2x2 matrix with rows
[1, 2] and [3, 4]. -/
theorem fromColsRows_both_panic :
    MatrixFromCols .tInt [[.vInt 1, .vInt 3], [.vInt 2, .vInt 4]]
        = .panic .nilPtrDeref ∧
    MatrixFromRows .tInt [[.vInt 1, .vInt 2], [.vInt 3, .vInt 4]]
        = .panic .nilPtrDeref :=
  ⟨rfl, rfl⟩

/-- Claim C1 (code bug): the claim says Mul returns the product, and in
particular that the 2x2 integer matrix [l 1, 1 r; l 0, 1 r] times itself
is [l 1, 2 r; l 0, 1 r]; instead the very first accumulation step calls
add on the nil accumulator slot of the freshly made product slice, so
the multiplication panics. -/
theorem mul_spec_example_panics :
    exU.Mul exU = .panic .nilInterfaceCall := by decide

/-- Claim C4 (code bug): the claim says setElement fails with
OutOfBoundsError exactly when i or j is out of bounds, and at the exact
boundary i = rows, j = cols.  The bounds test of the source is flipped
(i < mat.m or j < mat.n is rejected): the in-bounds call (0,0) on a 2x2
matrix is rejected with the out-of-bounds error, while the boundary call
(2,2) passes the test and panics on an out-of-range slice index instead
of failing with the error. -/
theorem setElement_bounds_eval :
    ex2.SetElement 0 0 (.vInt 9) = .ok (ex2, some .dimsOutOfBounds) ∧
    ex2.SetElement 2 2 (.vInt 9) = .panic .oobIndex := by
  constructor <;> decide

/-- Claim C2 (code bug): the claim says batchMultiply returns the
left-to-right sequential product.  The length-1 identity case does hold,
but for every longer sequence of compatible matrices the Mul it reduces
to panics (nil accumulator); evaluated at one, two and three copies of
the spec-example matrix [l 1, 1 r; l 0, 1 r]. -/
theorem batchMultiply_eval :
    BatchMultiply [exU] = .ok exU ∧
    BatchMultiply [exU, exU] = .panic .nilInterfaceCall ∧
    BatchMultiply [exU, exU, exU] = .panic .nilInterfaceCall := by
  have e1 : BatchMultiply [exU] = .ok exU := by
    unfold BatchMultiply
    decide
  have e2 : BatchMultiply [exU, exU] = .panic .nilInterfaceCall := by
    unfold BatchMultiply
    decide
  have e3 : BatchMultiply [exU, exU, exU] = .panic .nilInterfaceCall := by
    unfold BatchMultiply
    have harg1 : ([exU, exU, exU] : List Matrix).take ([exU, exU, exU].length / 2)
        = [exU] := rfl
    have harg2 : ([exU, exU, exU] : List Matrix).drop ([exU, exU, exU].length / 2)
        = [exU, exU] := rfl
    rw [if_neg (by decide), dif_pos (by decide), harg1, harg2, e1, e2]
    simp
  exact ⟨e1, e2, e3⟩

/-- Claim C6 (corrected): Add and Sub yield the zero-value sentinel
matrix when the element types or the data lengths differ, and otherwise
return a matrix with the element type of the inputs whose data is the
pairwise add/sub in flat order; however the result does not have the
shape of the inputs: the named return is only assigned typ and dat, so
its rows and cols stay 0. -/
theorem addSub_spec (m1 m2 : Matrix) :
    (¬ (m1.typ = m2.typ ∧ m1.dat.length = m2.dat.length) →
        m1.Add m2 = zeroMatrix ∧ m1.Sub m2 = zeroMatrix) ∧
    ((m1.typ = m2.typ ∧ m1.dat.length = m2.dat.length) →
        ((m1.Add m2).m = 0 ∧ (m1.Add m2).n = 0 ∧ (m1.Add m2).typ = m1.typ ∧
          (m1.Add m2).dat.length = m1.dat.length ∧
          ∀ (i : Nat) (a b : VecNum), m1.dat[i]? = some a → m2.dat[i]? = some b →
            (m1.Add m2).dat[i]? = some (a.add b)) ∧
        ((m1.Sub m2).m = 0 ∧ (m1.Sub m2).n = 0 ∧ (m1.Sub m2).typ = m1.typ ∧
          (m1.Sub m2).dat.length = m1.dat.length ∧
          ∀ (i : Nat) (a b : VecNum), m1.dat[i]? = some a → m2.dat[i]? = some b →
            (m1.Sub m2).dat[i]? = some (a.sub b))) := by
  constructor
  · intro h
    have hor : m1.typ ≠ m2.typ ∨ m1.dat.length ≠ m2.dat.length := by tauto
    constructor
    · simp only [Matrix.Add]; rw [if_pos hor]
    · simp only [Matrix.Sub]; rw [if_pos hor]
  · rintro ⟨ht, hl⟩
    have hcond : ¬ (m1.typ ≠ m2.typ ∨ m1.dat.length ≠ m2.dat.length) := by tauto
    have hAdd : m1.Add m2
        = { m := 0, n := 0, typ := m1.typ,
            dat := List.zipWith VecNum.add m1.dat m2.dat } := by
      simp only [Matrix.Add]; rw [if_neg hcond]
    have hSub : m1.Sub m2
        = { m := 0, n := 0, typ := m1.typ,
            dat := List.zipWith VecNum.sub m1.dat m2.dat } := by
      simp only [Matrix.Sub]; rw [if_neg hcond]
    constructor
    · refine ⟨by rw [hAdd], by rw [hAdd], by rw [hAdd], ?_, ?_⟩
      · rw [hAdd]; simp [List.length_zipWith, hl]
      · intro i a b ha hb
        rw [hAdd]
        exact zipWith_getElem_some VecNum.add m1.dat m2.dat i a b ha hb
    · refine ⟨by rw [hSub], by rw [hSub], by rw [hSub], ?_, ?_⟩
      · rw [hSub]; simp [List.length_zipWith, hl]
      · intro i a b ha hb
        rw [hSub]
        exact zipWith_getElem_some VecNum.sub m1.dat m2.dat i a b ha hb

/-- Counterexample to claim C6 as stated: at the 1x1 matrices holding 5
and 3, the sum does not have the shape of the inputs (its row count is
0, not 1). -/
theorem addSub_shape_counterexample : (exA.Add exB).m ≠ exA.m := by decide

/-- Witness for addSub_spec at the 1x1 matrices holding 5 and 3. -/
theorem addSub_spec_witness :
    (exA.typ = exB.typ ∧ exA.dat.length = exB.dat.length) ∧ (exA.Add exB).m = 0 :=
  ⟨⟨rfl, rfl⟩, ((addSub_spec exA exB).2 ⟨rfl, rfl⟩).1.1⟩

/-- Claim C7 (corrected): for same-shape, same-type matrices A and B,
subtract(add(A, B), B) returns A in element type and data, but not the
full matrix value: its rows and cols are 0 because Add and Sub never
assign the shape fields of their named return. -/
theorem add_then_sub_amended (A B : Matrix)
    (ht : A.typ = B.typ) (hm : A.m = B.m) (hn : A.n = B.n)
    (hlA : A.dat.length = (A.m * A.n).toNat)
    (hlB : B.dat.length = (B.m * B.n).toNat)
    (_hA : ∀ e ∈ A.dat, checkType A.typ e = true)
    (_hB : ∀ e ∈ B.dat, checkType B.typ e = true) :
    (A.Add B).Sub B = { m := 0, n := 0, typ := A.typ, dat := A.dat } := by
  have hl : A.dat.length = B.dat.length := by rw [hlA, hlB, hm, hn]
  have hAdd : A.Add B
      = { m := 0, n := 0, typ := A.typ,
          dat := List.zipWith VecNum.add A.dat B.dat } := by
    simp only [Matrix.Add]
    rw [if_neg (by simp [ht, hl])]
  rw [hAdd]
  have hlen2 : (List.zipWith VecNum.add A.dat B.dat).length = B.dat.length := by
    simp [List.length_zipWith, hl]
  simp only [Matrix.Sub]
  rw [if_neg (by simp [ht, hlen2])]
  have hdat : List.zipWith VecNum.sub (List.zipWith VecNum.add A.dat B.dat) B.dat
      = A.dat := by
    rw [zipWith_add_sub_cancel, ← hl, List.take_length]
  rw [hdat]

/-- Counterexample to claim C7 as stated: at the 1x1 matrices holding 5
and 3, subtract(add(A, B), B) differs from A (the shape is lost). -/
theorem add_then_sub_counterexample : (exA.Add exB).Sub exB ≠ exA := by decide

/-- Witness for add_then_sub_amended at the 1x1 matrices holding 5
and 3. -/
theorem add_then_sub_amended_witness :
    (exA.typ = exB.typ ∧ exA.m = exB.m ∧ exA.n = exB.n) ∧
    (exA.Add exB).Sub exB = { m := 0, n := 0, typ := exA.typ, dat := exA.dat } :=
  ⟨by decide,
    add_then_sub_amended exA exB rfl rfl rfl (by decide) (by decide)
      (by decide) (by decide)⟩

/-- Claim C9 (corrected): for matrices passing the compatibility check
of Mul whose result has at least one element and with at least one
accumulation step (a.cols at least 1), the first accumulation step calls
add on the nil accumulator slot of the freshly made product slice, so
Mul panics there instead of returning a product.  (When a.cols is 0 the
loop body never runs and Mul panics later, on the nil named-return
pointer inside the unchecked constructor, see the counterexample.) -/
theorem mul_nil_accumulator_panics (m1 m2 : Matrix)
    (hc : m1.n = m2.m) (ht : m1.typ = m2.typ)
    (h1 : m1.dat.length = (m1.m * m1.n).toNat)
    (h2 : m2.dat.length = (m2.m * m2.n).toNat)
    (hm : 1 ≤ m1.m) (hn : 1 ≤ m2.n) (hk : 1 ≤ m1.n) :
    m1.Mul m2 = .panic .nilInterfaceCall := by
  have hmn : 0 < m1.m * m2.n := mul_pos (by omega) (by omega)
  have h1p : 0 < m1.m * m1.n := mul_pos (by omega) (by omega)
  have h2p : 0 < m2.m * m2.n := mul_pos (by omega) (by omega)
  obtain ⟨r, hr⟩ : ∃ r, (m1.m * m2.n).toNat = r + 1 :=
    ⟨(m1.m * m2.n).toNat - 1, by omega⟩
  obtain ⟨a, d1, hd1⟩ : ∃ a d, m1.dat = a :: d := by
    cases hx : m1.dat with
    | nil => exfalso; rw [hx] at h1; simp at h1; omega
    | cons a d => exact ⟨a, d, rfl⟩
  obtain ⟨b, d2, hd2⟩ : ∃ b d, m2.dat = b :: d := by
    cases hx : m2.dat with
    | nil => exfalso; rw [hx] at h2; simp at h2; omega
    | cons b d => exact ⟨b, d, rfl⟩
  have hstep : mulStep m1 m2 0 0 0
      (List.replicate (m1.m * m2.n).toNat (none : Option VecNum))
      = .panic .nilInterfaceCall := by
    rw [hr]
    simp [mulStep, sliceGet, hd1, hd2, List.replicate_succ]
  have hloops : mulLoops m1 m2 = .panic .nilInterfaceCall := by
    obtain ⟨tj, htj⟩ : ∃ t, m2.n.toNat = t + 1 := ⟨m2.n.toNat - 1, by omega⟩
    obtain ⟨ti, hti⟩ : ∃ t, m1.m.toNat = t + 1 := ⟨m1.m.toNat - 1, by omega⟩
    obtain ⟨tk, htk⟩ : ∃ t, m1.n.toNat = t + 1 := ⟨m1.n.toNat - 1, by omega⟩
    unfold mulLoops
    rw [htj, List.range_succ_eq_map]
    refine foldlM_cons_panic _ _ _ _ _ ?_
    dsimp only
    rw [hti, List.range_succ_eq_map]
    refine foldlM_cons_panic _ _ _ _ _ ?_
    dsimp only
    rw [htk, List.range_succ_eq_map]
    refine foldlM_cons_panic _ _ _ _ _ ?_
    exact hstep
  unfold Matrix.Mul
  rw [if_neg (by simp [hc, ht]), if_neg (by omega), hloops]
  rfl

/-- Counterexample to claim C9 as stated: the 1x0 and 0x1 integer
matrices pass the compatibility check and their product has one element,
yet no accumulation step runs (a.cols is 0): Mul panics on the nil
named-return pointer of the unchecked constructor, not on a nil add. -/
theorem mul_zero_cols_counterexample :
    (exRow.n = exCol.m ∧ exRow.typ = exCol.typ ∧ 1 ≤ exRow.m * exCol.n ∧
      exRow.dat.length = (exRow.m * exRow.n).toNat ∧
      exCol.dat.length = (exCol.m * exCol.n).toNat) ∧
    exRow.Mul exCol = .panic .nilPtrDeref ∧
    exRow.Mul exCol ≠ .panic .nilInterfaceCall := by
  refine ⟨by decide, by decide, by decide⟩

/-- Witness for mul_nil_accumulator_panics at the spec-example matrix
times itself. -/
theorem mul_nil_accumulator_panics_witness :
    (exU.n = exU.m ∧ 1 ≤ exU.m ∧ 1 ≤ exU.n) ∧
    exU.Mul exU = .panic .nilInterfaceCall :=
  ⟨by decide,
    mul_nil_accumulator_panics exU exU rfl rfl (by decide) (by decide)
      (by decide) (by decide) (by decide)⟩

/-- Claim C10 (confirmed): for a matrix with len(dat) = m*n and m above
0, SetElement never performs a successful in-bounds write: every index
pair with i below m or j below n is rejected by the flipped bounds test,
and every pair passing it (i at least m and j at least n) yields the
flat offset m*j + i, at least m*n and out of range for dat, so no call
returns a nil error. -/
theorem setElement_never_succeeds (mat : Matrix) (i j : Int) (el : VecNum)
    (hinv : mat.dat.length = (mat.m * mat.n).toNat) (hm : 0 < mat.m) :
    ((i < mat.m ∨ j < mat.n) →
      mat.SetElement i j el = .ok (mat, some .dimsOutOfBounds)) ∧
    (mat.m ≤ i → mat.n ≤ j →
      mat.m * mat.n ≤ mat.m * j + i ∧
      ¬ (0 ≤ mat.m * j + i ∧ mat.m * j + i < (mat.dat.length : Int))) ∧
    (∀ mat2 : Matrix, mat.SetElement i j el ≠ .ok (mat2, none)) := by
  have key : mat.m ≤ i → mat.n ≤ j →
      mat.m * mat.n ≤ mat.m * j + i ∧
      ¬ (0 ≤ mat.m * j + i ∧ mat.m * j + i < (mat.dat.length : Int)) := by
    intro hi hj
    have hmono : mat.m * mat.n ≤ mat.m * j :=
      mul_le_mul_of_nonneg_left hj (by omega)
    constructor
    · omega
    · omega
  refine ⟨?_, key, ?_⟩
  · intro h
    simp only [Matrix.SetElement]
    rw [if_pos h]
  · intro mat2
    by_cases hb : i < mat.m ∨ j < mat.n
    · simp only [Matrix.SetElement]
      rw [if_pos hb]
      simp
    · push_neg at hb
      obtain ⟨hi, hj⟩ := hb
      have hoob := (key hi hj).2
      by_cases hty : checkType mat.typ el
      · simp only [Matrix.SetElement]
        rw [if_neg (show ¬ (i < mat.m ∨ j < mat.n) by omega)]
        simp only [hty, Bool.not_true, Bool.false_eq_true, if_false]
        simp [sliceSet, hoob]
      · simp [Matrix.SetElement, (show ¬ (i < mat.m ∨ j < mat.n) by omega), hty]

/-- Witness for setElement_never_succeeds at the 2x2 integer matrix and
the in-bounds index pair (0, 0). -/
theorem setElement_never_succeeds_witness :
    (ex2.dat.length = (ex2.m * ex2.n).toNat ∧ (0 : Int) < ex2.m) ∧
    ex2.SetElement 0 0 (.vInt 9) = .ok (ex2, some .dimsOutOfBounds) :=
  ⟨⟨by decide, by decide⟩,
    (setElement_never_succeeds ex2 0 0 (.vInt 9) (by decide) (by decide)).1
      (Or.inl (by decide))⟩

end Mathgl
